import Mathlib

/-!
Verification of the natural-language specification of the
Penny-Assignment repository (a natural-language-to-SQL agent with
retry-driven execution and conversational context management) against a
shallow embedding of its Python source.

Embedded components:
* `SQLAgent.execute_query_with_retry` (src/sql_agent_py.py, lines 139-157)
* `SQLAgent.process_question`          (src/sql_agent_py.py, lines 159-188)
* `SQLAgent.generate_sql`              (src/sql_agent_py.py, lines 106-137)
* `ChatManager.get_conversation_context` (src/chat_manager_py.py, lines 181-210)

Python dynamic values are embedded as the inductive `Val`; a Python dict
is an association list in insertion order; the external data-store
capability `db_manager.execute_query` is a parameter indexed by the
number of calls made so far, and the model capability is a parameter
returning `Except` (an exception or a structured response).
-/

/-- A Python runtime value, as far as the embedded code observes them:
`None`, booleans, non-negative integers (only lengths appear), strings,
lists and string-keyed dicts. -/
inductive Val where
  | null : Val
  | bool : Bool → Val
  | nat : Nat → Val
  | str : String → Val
  | list : List Val → Val
  deriving Repr

/-- A Python dict with string keys, in insertion order. -/
abbrev PyDict := List (String × Val)

/-- Dict read `d.get(k, dflt)` / `d[k]` on a Python dict (all embedded reads are on
keys that are present, or use an explicit default). -/
def dget (d : PyDict) (k : String) (dflt : Val) : Val :=
  match d.lookup k with
  | some v => v
  | none => dflt

/-- The triple returned by the data-store capability
`db_manager.execute_query(sql_query)`: `(success, results, error)`. -/
structure StoreResp where
  success : Bool
  results : Option (List Val)
  error : Option String
  deriving Repr

/-- An `Optional[str]` rendered as a dict value. -/
def optStr : Option String → Val
  | some s => Val.str s
  | none => Val.null

/-- An `Optional[List]` rendered as a dict value. -/
def optList : Option (List Val) → Val
  | some l => Val.list l
  | none => Val.null

/-- The success dict of `execute_query_with_retry`
(src/sql_agent_py.py line 152):
`{"success": True, "results": results, "rows": len(results) if results else 0, "error": None}`
(`len` of `None` is guarded by Python truthiness; `len([]) = 0` anyway). -/
def successDict (r : StoreResp) : PyDict :=
  [("success", Val.bool true),
   ("results", optList r.results),
   ("rows", Val.nat (r.results.getD []).length),
   ("error", Val.null)]

/-- The failure dict of `execute_query_with_retry`
(src/sql_agent_py.py line 157):
`{"success": False, "results": None, "error": last_error}`. -/
def failureDict (lastError : Option String) : PyDict :=
  [("success", Val.bool false),
   ("results", Val.null),
   ("error", optStr lastError)]

/-- The `while attempt < max_retries` loop of `execute_query_with_retry`
(src/sql_agent_py.py lines 144-157), embedded by its remaining iteration
count (`fuel`): the counter starts at 0 and is incremented once per
iteration, so the loop runs at most `max_retries.toNat` iterations.
`store` is the data-store capability indexed by the number of calls made
so far (`callIdx`); `lastError` is the `last_error` local. The second
component of the result instruments the number of store invocations
(the call-count mock of the spec's test properties). -/
def retryAux (store : Nat → StoreResp) :
    Nat → Nat → Option String → PyDict × Nat
  | 0, _, lastError => (failureDict lastError, 0)
  | fuel + 1, callIdx, _ =>
      let r := store callIdx
      if r.success then
        (successDict r, 1)
      else
        let rec_ := retryAux store fuel (callIdx + 1) r.error
        (rec_.1, rec_.2 + 1)

/-- Embedding of `SQLAgent.execute_query_with_retry(sql_query, max_retries)`
(src/sql_agent_py.py lines 139-157). `max_retries` is a Python int
(`Int`); the loop body runs while `attempt < max_retries` with `attempt`
counting 0,1,2,…, i.e. exactly up to `max_retries.toNat` times. The
query string is passed to every store call unchanged (the store
parameter already closes over it), so it is a plain argument here. -/
def execute_query_with_retry (store : Nat → StoreResp) (sql_query : String)
    (max_retries : Int) : PyDict × Nat :=
  let _ := sql_query
  retryAux store max_retries.toNat 0 none

/-- The structured model output `SQLResponse` (src/sql_agent_py.py
lines 17-21). -/
structure SQLResponse where
  sql_query : Option String
  explanation : String
  confidence : String
  deriving Repr

/-- One entry of the `conversation_history` list handed to
`generate_sql`: a dict read via `entry.get('question', '')` and
`entry.get('sql')` (src/sql_agent_py.py lines 122-123), so only those
two fields matter; `sql` may be absent (`none`). -/
structure HEntry where
  question : String
  sql : Option String
  deriving Repr

/-- Python's `l[-n:]` slice for an int `n`: the last `n` elements when
`n > 0`, the whole list when `n = 0` (`-0 = 0`), and `l[(-n):]` (drop
`-n` from the front) when `n < 0`. -/
def pySliceLast {α : Type} (l : List α) (n : Int) : List α :=
  if 0 < n then l.drop (l.length - n.toNat) else l.drop (-n).toNat

/-- Python `str.lower()` on the character list of a string (the strings
compared in the source are ASCII, where `Char.toLower` agrees with
Python's lowering). Stated over `String.data` so that it reduces inside
the kernel. -/
def pyLower (s : String) : String :=
  ⟨s.data.map Char.toLower⟩

/-- Python `str.strip()`: remove leading and trailing whitespace.
Stated over `String.data` so that it reduces inside the kernel. -/
def pyStrip (s : String) : String :=
  ⟨((s.data.dropWhile Char.isWhitespace).reverse.dropWhile
      Char.isWhitespace).reverse⟩

/-- Python truthiness of a string: true iff non-empty. -/
def pyTruthy (s : String) : Bool :=
  !s.data.isEmpty

/-- Does `pat` occur as a prefix of `text` (on character lists)? -/
def lcStarts : List Char → List Char → Bool
  | [], _ => true
  | _ :: _, [] => false
  | a :: as, b :: bs => a == b && lcStarts as bs

/-- Does `pat` occur anywhere inside `text` (on character lists)? -/
def lcOccurs (pat : List Char) : List Char → Bool
  | [] => lcStarts pat []
  | c :: cs => lcStarts pat (c :: cs) || lcOccurs pat cs

/-- Does the string `pat` occur as a substring of `s`? -/
def strOccurs (pat s : String) : Bool :=
  lcOccurs pat.data s.data

/-- The lines contributed to the prompt by one history entry
(src/sql_agent_py.py lines 121-125): a `Q:` line, then an `SQL:` line
only when `entry.get('sql')` is truthy (present and non-empty). -/
def entryLines (e : HEntry) : String :=
  "Q: " ++ e.question ++ "\n" ++
    (match e.sql with
     | some s => if pyTruthy s then "SQL: " ++ s ++ "\n" else ""
     | none => "")

/-- The prompt-building part of `generate_sql` (src/sql_agent_py.py
lines 117-126): the question unmodified when the history is empty,
otherwise `"Previous context:\n"`, the lines of the last 3 entries, and
`"\nCurrent question: "` plus the question, accumulated left to right. -/
def buildPromptContext (user_question : String) (history : List HEntry) :
    String :=
  if history.isEmpty then user_question
  else
    let recent := pySliceLast history 3
    (recent.foldl (fun acc e => acc ++ entryLines e) "Previous context:\n")
      ++ "\nCurrent question: " ++ user_question

/-- Embedding of `SQLAgent.generate_sql` (src/sql_agent_py.py lines 106-137). The
model capability `modelCall` abstracts `self.agent.run`: it either
returns a structured `SQLResponse` or raises (the `Except.error` case
carrying `str(e)`). Any raise is caught and converted to a chat-only
low-confidence response whose explanation is `"Error: " ++ str(e)`;
the function itself is total, so generation never raises. -/
def generate_sql (modelCall : String → Except String SQLResponse)
    (user_question : String) (conversation_history : List HEntry) :
    SQLResponse :=
  match modelCall (buildPromptContext user_question conversation_history) with
  | Except.ok r => r
  | Except.error e =>
      { sql_query := none, explanation := "Error: " ++ e, confidence := "low" }

/-- The chat-only guard of `process_question` (src/sql_agent_py.py
line 165): `not sql_response.sql_query or
sql_response.sql_query.strip().lower() == 'none'`. `not x` is true for
`None` and for the empty string; otherwise the stripped, lowered string
is compared to `'none'`. -/
def isNoQuery : Option String → Bool
  | none => true
  | some s => !pyTruthy s || pyLower (pyStrip s) == "none"

/-- The chat-only result dict of `process_question` (src/sql_agent_py.py
lines 166-172). -/
def chatDict (r : SQLResponse) : PyDict :=
  [("success", Val.bool true),
   ("sql_query", Val.null),
   ("explanation", Val.str r.explanation),
   ("confidence", Val.str r.confidence),
   ("results", Val.null)]

/-- The executed-query result dict of `process_question`
(src/sql_agent_py.py lines 177-184): success/results/error are read from
the execution dict, explanation/confidence from the generator output. -/
def execAssembledDict (r : SQLResponse) (q : String) (ed : PyDict) : PyDict :=
  [("success", dget ed "success" Val.null),
   ("sql_query", Val.str q),
   ("explanation", Val.str r.explanation),
   ("confidence", Val.str r.confidence),
   ("results", dget ed "results" Val.null),
   ("error", dget ed "error" Val.null)]

/-- Embedding of `SQLAgent.process_question` (src/sql_agent_py.py lines 159-188):
generate, short-circuit to a chat-only dict when the query is absent,
empty, or `'none'` after strip/lower, otherwise execute with retry and
assemble the final dict. The second component instruments the number of
data-store invocations. (The enclosing `try/except` is unreachable in
the embedding: every step below is total.) -/
def process_question (modelCall : String → Except String SQLResponse)
    (store : Nat → StoreResp) (max_retries : Int)
    (user_question : String) (conversation_history : List HEntry) :
    PyDict × Nat :=
  let r := generate_sql modelCall user_question conversation_history
  if isNoQuery r.sql_query then
    (chatDict r, 0)
  else
    let q := r.sql_query.getD ""
    let er := execute_query_with_retry store q max_retries
    (execAssembledDict r q er.1, er.2)

/-- A persisted chat message as surfaced by
`ChatManager.get_session_messages` (src/chat_manager_py.py lines 85-104):
only `role`, `content` and `metadata` are read by the context builder.
Messages persisted by this program always store a mapping as metadata
(src/streamlit_app_py.py lines 698-724), so `metadata` is a dict here;
the string-reparse branch of lines 198-202 concerns legacy stringly
metadata and is exercised by no claim. -/
structure Msg where
  role : String
  content : String
  metadata : PyDict
  deriving Repr

/-- A reconstructed conversation turn, the dict appended at
src/chat_manager_py.py lines 204-208: `question`, `sql` (the metadata's
`sql_query` value, defaulting to the empty string) and `response`. -/
structure Turn where
  question : String
  sql : Val
  response : String
  deriving Repr

/-- The turn built from an adjacent user/assistant pair
(src/chat_manager_py.py lines 204-208). -/
def mkTurn (u a : Msg) : Turn :=
  { question := u.content,
    sql := dget a.metadata "sql_query" (Val.str ""),
    response := a.content }

/-- The fixed-stride-2 pairing scan of `get_conversation_context`
(src/chat_manager_py.py lines 190-208): `for i in range(0, len-1, 2)`
looks at messages `i` and `i+1` and contributes a turn only when the
first is a user message and the second an assistant message; a lone
trailing message is ignored. -/
def pairScan : List Msg → List Turn
  | u :: a :: rest =>
      if u.role == "user" && a.role == "assistant" then
        mkTurn u a :: pairScan rest
      else
        pairScan rest
  | _ => []

/-- Embedding of `ChatManager.get_conversation_context` over an already-fetched
message list (src/chat_manager_py.py lines 181-210): scan into turns,
then `context[-last_n:] if context else []`. `last_n` is a Python int
(default 5). -/
def get_conversation_context (messages : List Msg) (last_n : Int) :
    List Turn :=
  let context := pairScan messages
  if context.isEmpty then [] else pySliceLast context last_n

/-- Flatten a list of user/assistant message pairs into a message
history, used to state properties about well-formed alternating
histories of length `2k`. -/
def flattenPairs : List (Msg × Msg) → List Msg
  | [] => []
  | p :: ps => p.1 :: p.2 :: flattenPairs ps

/-- A data store that fails every call with a distinct error message. -/
def failStoreE : Nat → StoreResp :=
  fun i => ⟨false, none, some ("e" ++ toString i)⟩

/-- A data store that fails its first call and succeeds from the second
call on, returning one row. -/
def flakyStore : Nat → StoreResp :=
  fun i => if i == 0 then ⟨false, none, some "e0"⟩
           else ⟨true, some [Val.nat 7], none⟩

/-- A model capability that returns a whitespace-only query string. -/
def wsModel : String → Except String SQLResponse :=
  fun _ => Except.ok ⟨some "   ", "ws explanation", "high"⟩

/-- A model capability that returns the literal query string `"None"`. -/
def noneModel : String → Except String SQLResponse :=
  fun _ => Except.ok ⟨some "None", "chat explanation", "medium"⟩

/-- A model capability that returns an absent (`None`) query. -/
def chatModel : String → Except String SQLResponse :=
  fun _ => Except.ok ⟨none, "chat answer", "high"⟩

/-- A model capability that returns a real query. -/
def sqlModel : String → Except String SQLResponse :=
  fun _ => Except.ok ⟨some "SELECT 1", "runs a query", "high"⟩

/-- A model capability that always raises. -/
def raisingModel : String → Except String SQLResponse :=
  fun _ => Except.error "connection refused"

/-- A concrete persisted user message. -/
def msgU : Msg := ⟨"user", "X", []⟩

/-- A concrete persisted assistant message with the metadata shape
written by `handle_user_input` (src/streamlit_app_py.py lines 698-703). -/
def msgA : Msg :=
  ⟨"assistant", "Z",
    [("sql_query", Val.str "Y"),
     ("results", Val.list []),
     ("confidence", Val.str "high"),
     ("success", Val.bool true)]⟩


/-- Concatenation of a list of strings, head first (used to state the
shape of the built prompt). -/
def concatLines : List String → String
  | [] => ""
  | s :: rest => s ++ concatLines rest

/-- A concrete one-turn history whose turn carries a query. -/
def histQ : List HEntry := [⟨"q1", some "SELECT 1"⟩]

/-- C10: with a non-positive retry bound the loop body never runs: the
engine makes zero store calls and returns `success=False`,
`results=None`, and an absent (`None`) error message. -/
theorem exec_retry_nonpositive_bound (store : Nat → StoreResp)
    (q : String) (m : Int) (hm : m ≤ 0) :
    execute_query_with_retry store q m =
      ([("success", Val.bool false), ("results", Val.null),
        ("error", Val.null)], 0) := by
  unfold execute_query_with_retry
  rw [Int.toNat_of_nonpos hm]
  rfl

/-- Witness for C10 at the concrete bound `-2`. -/
theorem exec_retry_nonpositive_bound_witness :
    execute_query_with_retry failStoreE "SELECT 1" (-2) =
      ([("success", Val.bool false), ("results", Val.null),
        ("error", Val.null)], 0) :=
  exec_retry_nonpositive_bound failStoreE "SELECT 1" (-2) (by decide)

/-- Counterexample to C3 as stated: with a concrete always-failing store
and bound 3, the result dict is exactly
`{"success": False, "results": None, "error": "e2"}` with call count 3 —
there is no `attemptCount` (nor similarly named) binding at all, so the
claim's `attemptCount=3` is false of the returned result. -/
theorem exec_retry_no_attempt_count_field :
    execute_query_with_retry failStoreE "SELECT 1" 3 =
      ([("success", Val.bool false), ("results", Val.null),
        ("error", Val.str "e2")], 3) ∧
    (execute_query_with_retry failStoreE "SELECT 1" 3).1.lookup
      "attemptCount" = none ∧
    (execute_query_with_retry failStoreE "SELECT 1" 3).1.lookup
      "attempt_count" = none ∧
    (execute_query_with_retry failStoreE "SELECT 1" 3).1.lookup
      "retry_attempts" = none :=
  ⟨rfl, rfl, rfl, rfl⟩

/-- C3 (amended): with a store failing on every attempt and bound 3, the
engine performs exactly 3 store calls and returns `success=False` with
the error message of the 3rd attempt only; the result dict carries no
attempt count. -/
theorem exec_retry_always_fail_three (store : Nat → StoreResp)
    (q : String) (hfail : ∀ i, (store i).success = false) :
    execute_query_with_retry store q 3 =
      (failureDict (store 2).error, 3) ∧
    (execute_query_with_retry store q 3).1.lookup "attemptCount" = none := by
  have h0 := hfail 0
  have h1 := hfail 1
  have h2 := hfail 2
  have hmain : execute_query_with_retry store q 3 =
      (failureDict (store 2).error, 3) := by
    unfold execute_query_with_retry
    have ht : ((3 : Int)).toNat = 3 := rfl
    rw [ht]
    simp [retryAux, h0, h1, h2]
  refine ⟨hmain, ?_⟩
  rw [hmain]
  simp [failureDict]

/-- Witness for C3 (amended) at the concrete always-failing store. -/
theorem exec_retry_always_fail_three_witness :
    execute_query_with_retry failStoreE "SELECT 1" 3 =
      (failureDict (failStoreE 2).error, 3) ∧
    (execute_query_with_retry failStoreE "SELECT 1" 3).1.lookup
      "attemptCount" = none :=
  exec_retry_always_fail_three failStoreE "SELECT 1" (fun _ => rfl)

/-- Counterexample to C4 as stated: with a concrete store failing once
then succeeding, and bound 3, the result dict is exactly the success
dict of the 2nd call with call count 2 — it has no `attemptCount`
binding, so the claim's `attemptCount=2` is false of the returned
result. -/
theorem exec_retry_no_attempt_count_on_success :
    execute_query_with_retry flakyStore "SELECT 1" 3 =
      ([("success", Val.bool true), ("results", Val.list [Val.nat 7]),
        ("rows", Val.nat 1), ("error", Val.null)], 2) ∧
    (execute_query_with_retry flakyStore "SELECT 1" 3).1.lookup
      "attemptCount" = none :=
  ⟨rfl, rfl⟩

/-- C4 (amended): with a store that fails its 1st call and succeeds its
2nd, and any bound of at least 2, the engine returns right after the
2nd store call — exactly 2 calls — with the success dict built from
that call (its rows/results pass through); the result dict carries no
attempt count. -/
theorem exec_retry_second_call_success (store : Nat → StoreResp)
    (q : String) (m : Int) (h0 : (store 0).success = false)
    (h1 : (store 1).success = true) (hm : 2 ≤ m) :
    execute_query_with_retry store q m = (successDict (store 1), 2) ∧
    (execute_query_with_retry store q m).1.lookup "attemptCount" = none := by
  obtain ⟨k, hk⟩ : ∃ k, m.toNat = k + 2 := ⟨m.toNat - 2, by omega⟩
  have hmain : execute_query_with_retry store q m =
      (successDict (store 1), 2) := by
    unfold execute_query_with_retry
    rw [hk]
    simp [retryAux, h0, h1]
  refine ⟨hmain, ?_⟩
  rw [hmain]
  simp [successDict]

/-- Witness for C4 (amended) at the concrete flaky store with bound 5. -/
theorem exec_retry_second_call_success_witness :
    execute_query_with_retry flakyStore "SELECT 1" 5 =
      (successDict (flakyStore 1), 2) ∧
    (execute_query_with_retry flakyStore "SELECT 1" 5).1.lookup
      "attemptCount" = none :=
  exec_retry_second_call_success flakyStore "SELECT 1" 5 rfl rfl (by decide)

/-- Every dict produced by the retry loop is either the success dict of
some store response or the failure dict of some recorded error. -/
theorem retryAux_shape (store : Nat → StoreResp) :
    ∀ (fuel callIdx : Nat) (le : Option String),
      (∃ r, (retryAux store fuel callIdx le).1 = successDict r) ∨
      (∃ le2, (retryAux store fuel callIdx le).1 = failureDict le2) := by
  intro fuel
  induction fuel with
  | zero => intro callIdx le; exact Or.inr ⟨le, rfl⟩
  | succ n ih =>
      intro callIdx le
      by_cases hs : (store callIdx).success = true
      · exact Or.inl ⟨store callIdx, by simp [retryAux, hs]⟩
      · have hs2 : (store callIdx).success = false := by
          cases h : (store callIdx).success
          · rfl
          · exact absurd h hs
        have := ih (callIdx + 1) (store callIdx).error
        rcases this with ⟨r, hr⟩ | ⟨le2, hl⟩
        · exact Or.inl ⟨r, by simp [retryAux, hs2]; exact hr⟩
        · exact Or.inr ⟨le2, by simp [retryAux, hs2]; exact hl⟩

/-- C5: whenever the model capability raises, `generate_sql` returns
(never re-raises) the structured response with an absent query,
confidence `"low"`, and an explanation `"Error: " ++ <error text>`
containing the error's text. -/
theorem generate_sql_catches_model_error
    (modelCall : String → Except String SQLResponse)
    (q : String) (h : List HEntry) (e : String)
    (herr : modelCall (buildPromptContext q h) = Except.error e) :
    generate_sql modelCall q h =
      { sql_query := none, explanation := "Error: " ++ e,
        confidence := "low" } := by
  unfold generate_sql
  rw [herr]

/-- Witness for C5 at a concrete raising model capability. -/
theorem generate_sql_catches_model_error_witness :
    generate_sql raisingModel "hi" [] =
      { sql_query := none,
        explanation := "Error: " ++ "connection refused",
        confidence := "low" } :=
  generate_sql_catches_model_error raisingModel "hi" [] "connection refused"
    rfl

/-- C1: when the generator's output has an absent query,
`process_question` returns the chat-only dict — `success=True`, query
`None`, no `rows` binding, `results=None`, and the generator's
explanation and confidence unchanged — and the data store is invoked
zero times. -/
theorem process_question_chat_short_circuit
    (modelCall : String → Except String SQLResponse)
    (store : Nat → StoreResp) (m : Int) (q : String) (h : List HEntry)
    (hq : (generate_sql modelCall q h).sql_query = none) :
    process_question modelCall store m q h =
      (chatDict (generate_sql modelCall q h), 0) ∧
    (process_question modelCall store m q h).1.lookup "success"
      = some (Val.bool true) ∧
    (process_question modelCall store m q h).1.lookup "sql_query"
      = some Val.null ∧
    (process_question modelCall store m q h).1.lookup "rows" = none ∧
    (process_question modelCall store m q h).1.lookup "results"
      = some Val.null ∧
    (process_question modelCall store m q h).1.lookup "explanation"
      = some (Val.str (generate_sql modelCall q h).explanation) ∧
    (process_question modelCall store m q h).1.lookup "confidence"
      = some (Val.str (generate_sql modelCall q h).confidence) ∧
    (process_question modelCall store m q h).2 = 0 := by
  have hin : isNoQuery (generate_sql modelCall q h).sql_query = true := by
    rw [hq]; rfl
  have hmain : process_question modelCall store m q h =
      (chatDict (generate_sql modelCall q h), 0) := by
    unfold process_question
    simp [hin]
  refine ⟨hmain, ?_, ?_, ?_, ?_, ?_, ?_, ?_⟩ <;> rw [hmain] <;> rfl

/-- Witness for C1 at a concrete chat-only model capability. -/
theorem process_question_chat_short_circuit_witness :
    process_question chatModel failStoreE 3 "hi" [] =
      (chatDict (generate_sql chatModel "hi" []), 0) ∧
    (process_question chatModel failStoreE 3 "hi" []).1.lookup "success"
      = some (Val.bool true) ∧
    (process_question chatModel failStoreE 3 "hi" []).1.lookup "sql_query"
      = some Val.null ∧
    (process_question chatModel failStoreE 3 "hi" []).1.lookup "rows"
      = none ∧
    (process_question chatModel failStoreE 3 "hi" []).1.lookup "results"
      = some Val.null ∧
    (process_question chatModel failStoreE 3 "hi" []).1.lookup "explanation"
      = some (Val.str (generate_sql chatModel "hi" []).explanation) ∧
    (process_question chatModel failStoreE 3 "hi" []).1.lookup "confidence"
      = some (Val.str (generate_sql chatModel "hi" []).confidence) ∧
    (process_question chatModel failStoreE 3 "hi" []).2 = 0 :=
  process_question_chat_short_circuit chatModel failStoreE 3 "hi" [] rfl

/-- Counterexample to C2 as stated: for the whitespace-only generated
query `"   "`, `process_question` does NOT short-circuit: with an
always-failing store and bound 3 it invokes the store 3 times (not 0)
and returns an execution failure, because the guard
`not q or q.strip().lower() == 'none'` is false for `"   "`
(a non-empty string is truthy and strips to `""`, not `"none"`). -/
theorem whitespace_query_not_short_circuited :
    (process_question wsModel failStoreE 3 "hi" []).2 = 3 ∧
    (process_question wsModel failStoreE 3 "hi" []).2 ≠ 0 ∧
    (process_question wsModel failStoreE 3 "hi" []).1.lookup "success"
      = some (Val.bool false) :=
  ⟨rfl, by decide, rfl⟩

/-- C2 (amended): the generated query strings `""`, `"None"` and
`"none"` are treated as "no query": `process_question` short-circuits
to the chat-only result with zero store invocations. (A whitespace-only
string such as `"   "` is NOT so treated — it is handed to the
execution engine.) -/
theorem no_query_tokens_short_circuit
    (modelCall : String → Except String SQLResponse)
    (store : Nat → StoreResp) (m : Int) (q : String) (h : List HEntry)
    (s : String) (hs : s = "" ∨ s = "None" ∨ s = "none")
    (hq : (generate_sql modelCall q h).sql_query = some s) :
    process_question modelCall store m q h =
      (chatDict (generate_sql modelCall q h), 0) := by
  have hin : isNoQuery (generate_sql modelCall q h).sql_query = true := by
    rw [hq]
    rcases hs with h1 | h1 | h1 <;> subst h1 <;> decide
  unfold process_question
  simp [hin]

/-- Witness for C2 (amended) at the concrete query string `"None"`. -/
theorem no_query_tokens_short_circuit_witness :
    process_question noneModel failStoreE 3 "hi" [] =
      (chatDict (generate_sql noneModel "hi" []), 0) :=
  no_query_tokens_short_circuit noneModel failStoreE 3 "hi" [] "None"
    (Or.inr (Or.inl rfl)) rfl

/-- C7: when the generator's query is not short-circuited, the final
result's `explanation` and `confidence` are the generator's output
unchanged — even when the execution result is a failure — while its
`success`, `results` and `error` fields, and the store call count, are
exactly those of the Execution-with-Retry Engine's result. -/
theorem process_question_frame
    (modelCall : String → Except String SQLResponse)
    (store : Nat → StoreResp) (m : Int) (q : String) (h : List HEntry)
    (hq : isNoQuery (generate_sql modelCall q h).sql_query = false) :
    (process_question modelCall store m q h).1.lookup "explanation"
      = some (Val.str (generate_sql modelCall q h).explanation) ∧
    (process_question modelCall store m q h).1.lookup "confidence"
      = some (Val.str (generate_sql modelCall q h).confidence) ∧
    (process_question modelCall store m q h).1.lookup "success"
      = (execute_query_with_retry store
          ((generate_sql modelCall q h).sql_query.getD "") m).1.lookup
            "success" ∧
    (process_question modelCall store m q h).1.lookup "results"
      = (execute_query_with_retry store
          ((generate_sql modelCall q h).sql_query.getD "") m).1.lookup
            "results" ∧
    (process_question modelCall store m q h).1.lookup "error"
      = (execute_query_with_retry store
          ((generate_sql modelCall q h).sql_query.getD "") m).1.lookup
            "error" ∧
    (process_question modelCall store m q h).2
      = (execute_query_with_retry store
          ((generate_sql modelCall q h).sql_query.getD "") m).2 := by
  have hmain : process_question modelCall store m q h =
      (execAssembledDict (generate_sql modelCall q h)
        ((generate_sql modelCall q h).sql_query.getD "")
        (execute_query_with_retry store
          ((generate_sql modelCall q h).sql_query.getD "") m).1,
       (execute_query_with_retry store
          ((generate_sql modelCall q h).sql_query.getD "") m).2) := by
    unfold process_question
    simp [hq]
  have hE : execute_query_with_retry store
      ((generate_sql modelCall q h).sql_query.getD "") m
      = retryAux store m.toNat 0 none := rfl
  rcases retryAux_shape store m.toNat 0 none with ⟨rr, hr⟩ | ⟨le2, hl⟩
  · refine ⟨?_, ?_, ?_, ?_, ?_, ?_⟩ <;> rw [hmain, hE, hr] <;> rfl
  · refine ⟨?_, ?_, ?_, ?_, ?_, ?_⟩ <;> rw [hmain, hE, hl] <;> rfl

/-- Witness for C7: a concrete query-producing model with an
always-failing store — the result is an execution failure, yet the
explanation and confidence are still the generator's. -/
theorem process_question_frame_witness :
    (process_question sqlModel failStoreE 3 "hi" []).1.lookup "explanation"
      = some (Val.str (generate_sql sqlModel "hi" []).explanation) ∧
    (process_question sqlModel failStoreE 3 "hi" []).1.lookup "confidence"
      = some (Val.str (generate_sql sqlModel "hi" []).confidence) ∧
    (process_question sqlModel failStoreE 3 "hi" []).1.lookup "success"
      = (execute_query_with_retry failStoreE
          ((generate_sql sqlModel "hi" []).sql_query.getD "") 3).1.lookup
            "success" ∧
    (process_question sqlModel failStoreE 3 "hi" []).1.lookup "results"
      = (execute_query_with_retry failStoreE
          ((generate_sql sqlModel "hi" []).sql_query.getD "") 3).1.lookup
            "results" ∧
    (process_question sqlModel failStoreE 3 "hi" []).1.lookup "error"
      = (execute_query_with_retry failStoreE
          ((generate_sql sqlModel "hi" []).sql_query.getD "") 3).1.lookup
            "error" ∧
    (process_question sqlModel failStoreE 3 "hi" []).2
      = (execute_query_with_retry failStoreE
          ((generate_sql sqlModel "hi" []).sql_query.getD "") 3).2 :=
  process_question_frame sqlModel failStoreE 3 "hi" [] rfl

/-- On a history that is a flattened list of user/assistant pairs, the
stride-2 scan reconstructs exactly one turn per pair, in order. -/
theorem pairScan_flattenPairs (pairs : List (Msg × Msg))
    (hroles : ∀ p ∈ pairs, (Prod.fst p).role = "user" ∧
      (Prod.snd p).role = "assistant") :
    pairScan (flattenPairs pairs)
      = pairs.map (fun p => mkTurn p.1 p.2) := by
  induction pairs with
  | nil => rfl
  | cons p ps ih =>
      have hp := hroles p (List.mem_cons_self p ps)
      have hrest : ∀ x ∈ ps, (Prod.fst x).role = "user" ∧
          (Prod.snd x).role = "assistant" :=
        fun x hx => hroles x (List.mem_cons_of_mem p hx)
      have h1 : (p.1.role == "user") = true := by rw [hp.1]; rfl
      have h2 : (p.2.role == "assistant") = true := by rw [hp.2]; rfl
      simp [flattenPairs, pairScan, h1, h2, ih hrest]

/-- C6: the context builder returns the empty sequence on any history of
fewer than 2 messages; and on a well-formed alternating user/assistant
history of length `2k` (a flattened list of `k` pairs) with a positive
`lastN` it returns the `k` turns of the pairs, in chronological order,
truncated to the last `lastN`. -/
theorem get_conversation_context_spec :
    (∀ (messages : List Msg) (n : Int), messages.length < 2 →
        get_conversation_context messages n = []) ∧
    (∀ (pairs : List (Msg × Msg)) (n : Int),
        (∀ p ∈ pairs, (Prod.fst p).role = "user" ∧
          (Prod.snd p).role = "assistant") →
        0 < n →
        get_conversation_context (flattenPairs pairs) n
          = (pairs.map (fun p => mkTurn p.1 p.2)).drop
              (pairs.length - n.toNat) ∧
        (pairs.map (fun p => mkTurn p.1 p.2)).length = pairs.length) := by
  constructor
  · intro messages n hlen
    match messages, hlen with
    | [], _ => rfl
    | [m], _ => rfl
    | a :: b :: t, hlen => simp at hlen; omega
  · intro pairs n hroles hn
    have hscan := pairScan_flattenPairs pairs hroles
    refine ⟨?_, by simp⟩
    have hdef : get_conversation_context (flattenPairs pairs) n =
        if (pairScan (flattenPairs pairs)).isEmpty = true then []
        else pySliceLast (pairScan (flattenPairs pairs)) n := rfl
    rw [hdef, hscan]
    cases pairs with
    | nil => simp
    | cons p ps =>
        simp only [List.map_cons, List.isEmpty_cons, Bool.false_eq_true,
          if_false]
        unfold pySliceLast
        rw [if_pos hn]
        simp

/-- Witness for C6: a single-message history yields no turns, and a
single persisted user/assistant pair with positive `lastN = 5` yields
exactly its one turn. -/
theorem get_conversation_context_spec_witness :
    get_conversation_context [msgU] 5 = [] ∧
    (get_conversation_context (flattenPairs [(msgU, msgA)]) 5
        = ([(msgU, msgA)].map (fun p => mkTurn p.1 p.2)).drop
            ([(msgU, msgA)].length - (5 : Int).toNat) ∧
      ([(msgU, msgA)].map (fun p => mkTurn p.1 p.2)).length
        = [(msgU, msgA)].length) :=
  ⟨get_conversation_context_spec.1 [msgU] 5 (by decide),
   get_conversation_context_spec.2 [(msgU, msgA)] 5 (by decide) (by decide)⟩

/-- C8: round-trip — a persisted user/assistant pair with user content
`X`, assistant metadata carrying `sql_query = Y` (alongside the other
metadata fields the UI writes), and assistant content `Z` reconstructs
to the turn `{question := X, sql := Y, response := Z}` exactly. -/
theorem context_round_trip (X Y Z : String) (res : List Val)
    (conf : String) (suc : Bool) :
    get_conversation_context
      [{ role := "user", content := X, metadata := [] },
       { role := "assistant", content := Z,
         metadata := [("sql_query", Val.str Y), ("results", Val.list res),
                      ("confidence", Val.str conf),
                      ("success", Val.bool suc)] }] 5
      = [{ question := X, sql := Val.str Y, response := Z }] := rfl

/-- Accumulating string folds concatenate on the right of their initial
value. -/
theorem foldl_append_entryLines (l : List HEntry) (init : String) :
    l.foldl (fun acc e => acc ++ entryLines e) init
      = init ++ concatLines (l.map entryLines) := by
  induction l generalizing init with
  | nil => simp [concatLines, String.append_empty]
  | cons e es ih =>
      rw [List.foldl_cons, ih, List.map_cons]
      show init ++ entryLines e ++ concatLines (es.map entryLines)
        = init ++ (entryLines e ++ concatLines (es.map entryLines))
      rw [String.append_assoc]

/-- Counterexample to C9 as stated: the per-turn query line is labelled
`SQL:`, not `Query:` — on a concrete one-turn history with a query,
the built prompt contains no occurrence of `"Query: "` at all, while it
does contain `"SQL: SELECT 1"`; the full prompt is shown literally. -/
theorem prompt_label_is_sql_not_query :
    strOccurs "Query: " (buildPromptContext "q2" histQ) = false ∧
    strOccurs "SQL: SELECT 1" (buildPromptContext "q2" histQ) = true ∧
    buildPromptContext "q2" histQ
      = "Previous context:\nQ: q1\nSQL: SELECT 1\n\nCurrent question: q2" :=
  ⟨rfl, rfl, rfl⟩

/-- C9 (amended): with an empty history the prompt is the question
unmodified; with a non-empty history it is `"Previous context:\n"`,
then for each of at most the last 3 turns a `Q: <question>` line and —
only when that turn's query value is present and non-empty — an
`SQL: <query>` line, then `"\nCurrent question: "` and the question. -/
theorem prompt_context_structure :
    (∀ q : String, buildPromptContext q [] = q) ∧
    (∀ (q : String) (hist : List HEntry), hist ≠ [] →
        buildPromptContext q hist
          = "Previous context:\n"
              ++ concatLines ((pySliceLast hist 3).map entryLines)
              ++ "\nCurrent question: " ++ q) := by
  constructor
  · intro q
    rfl
  · intro q hist hne
    have hemp : hist.isEmpty = false := by
      cases hist with
      | nil => exact absurd rfl hne
      | cons a t => rfl
    have hdef : buildPromptContext q hist =
        if hist.isEmpty then q
        else ((pySliceLast hist 3).foldl
            (fun acc e => acc ++ entryLines e) "Previous context:\n")
          ++ "\nCurrent question: " ++ q := rfl
    rw [hdef, hemp]
    simp only [Bool.false_eq_true, if_false]
    rw [foldl_append_entryLines]

/-- Witness for C9 (amended) at an empty history and at the concrete
one-turn history `histQ`. -/
theorem prompt_context_structure_witness :
    buildPromptContext "q0" [] = "q0" ∧
    buildPromptContext "q2" histQ
      = "Previous context:\n"
          ++ concatLines ((pySliceLast histQ 3).map entryLines)
          ++ "\nCurrent question: " ++ "q2" :=
  ⟨prompt_context_structure.1 "q0",
   prompt_context_structure.2 "q2" histQ (by intro h; cases h)⟩
